import Mathlib

/-!
# Verification of the weather-proxy backend (`backend/app.py`)

A shallow embedding of the Flask weather proxy: the JSON data model, the
Python-level conversions (`int()`, `float()`, truthiness), the in-memory TTL
cache (`cache_get` / `cache_set`), the response normalizer
(`normalize_forecast`), the Open-Meteo and WillyWeather adapters (their
post-HTTP processing, with the HTTP layer abstracted as an upstream oracle),
and the `/api/weather` request handler (`weather`).

Conventions of the embedding:
* JSON values (and Python values flowing through the handler) are `JVal`;
  Python `None` is `JVal.null`, Python dicts are association lists.
* Numbers are rationals; Python's `int`/`float` distinction is not observable
  in any property below.
* Fallible Python code returns `Except PyErr _`; a top-level `.error` of the
  handler models an exception escaping the request handler.
* The three network calls are replaced by an oracle (`Ups`) describing what
  each upstream interaction would yield: a timeout, an HTTP error status, an
  arbitrary exception, or a JSON body.
* `float()` on strings is modelled for signed decimal literals
  (optional sign, digits, optional fractional part), the forms relevant to
  query-string coordinates; `int()` on strings for signed integer literals.
-/

/-- JSON / Python values as they flow through the proxy. -/
inductive JVal where
  | null
  | bool (b : Bool)
  | num (q : ℚ)
  | str (s : String)
  | arr (xs : List JVal)
  | obj (kvs : List (String × JVal))
  deriving Repr

/-- A Python dict with string keys (association list, first match wins). -/
abbrev JObj := List (String × JVal)

/-- Python exceptions that the backend can raise. -/
inductive PyErr where
  | valueError (msg : String)
  | typeError (msg : String)
  | attributeError (msg : String)
  deriving Repr, DecidableEq

/-- `str(e)` on an exception: its message. -/
def pyErrMsg : PyErr → String
  | .valueError m => m
  | .typeError m => m
  | .attributeError m => m

/-- Python truthiness of a value (`bool(v)`). -/
def truthy : JVal → Bool
  | .null => false
  | .bool b => b
  | .num q => if q = 0 then false else true
  | .str s => if s = "" then false else true
  | .arr xs => !xs.isEmpty
  | .obj l => !l.isEmpty

/-- `d.get(k)` returning the first value bound to `k`, if any. -/
def objGet? (l : JObj) (k : String) : Option JVal :=
  (l.find? (fun p => p.1 == k)).map (fun p => p.2)

/-- `d.get(k, default)`. -/
def pyGetD (l : JObj) (k : String) (dflt : JVal) : JVal :=
  (objGet? l k).getD dflt

/-- `d.get(k)` (default `None`). -/
def pyGet (l : JObj) (k : String) : JVal :=
  pyGetD l k .null

/-- Lookup on an arbitrary value: key of an object, else nothing. -/
def jGet (v : JVal) (k : String) : Option JVal :=
  match v with
  | .obj l => objGet? l k
  | _ => none

/-- Python's `a or b`: `a` if truthy, else `b`. -/
def pyOr (a b : JVal) : JVal :=
  if truthy a then a else b

/-- `{**a, **b}` / `dict(a); a.update(b)`: overwrite in place, append new keys. -/
def dictUpdate (a b : JObj) : JObj :=
  b.foldl
    (fun acc kv =>
      if acc.any (fun p => p.1 == kv.1) then
        acc.map (fun p => if p.1 == kv.1 then (p.1, kv.2) else p)
      else acc ++ [kv])
    a

/-- Value of a nonempty digit string. -/
def digitsVal? (l : List Char) : Option Nat :=
  if l.isEmpty then none
  else if l.all Char.isDigit then
    some (l.foldl (fun n c => 10 * n + (c.toNat - 48)) 0)
  else none

/-- Value of a possibly-empty digit string (empty means 0). -/
def digitsVal0 (l : List Char) : Nat :=
  l.foldl (fun n c => 10 * n + (c.toNat - 48)) 0

/-- Unsigned decimal literal: `"12"`, `"12.5"`, `".5"`, `"5."`. -/
def parseUDec (t : String) : Option ℚ :=
  match t.splitOn "." with
  | [a] => (digitsVal? a.toList).map (fun n => (n : ℚ))
  | [a, b] =>
    if (a.toList.all Char.isDigit && b.toList.all Char.isDigit)
        && !(a.isEmpty && b.isEmpty) then
      some ((digitsVal0 a.toList : ℚ) + (digitsVal0 b.toList : ℚ) / (10 : ℚ) ^ b.length)
    else none
  | _ => none

/-- Python `float(s)` on a string (signed decimal literals). -/
def pyFloatOfString (s : String) : Except PyErr ℚ :=
  let t := s.trim
  let core? :=
    if t.startsWith "-" then (parseUDec (t.drop 1)).map Neg.neg
    else if t.startsWith "+" then parseUDec (t.drop 1)
    else parseUDec t
  match core? with
  | some q => .ok q
  | none => .error (.valueError ("could not convert string to float: " ++ s))

/-- Python `int(s)` on a string (signed integer literals). -/
def pyIntOfString (s : String) : Except PyErr Int :=
  let t := s.trim
  let core? :=
    if t.startsWith "+" then (t.drop 1).toNat?.map Int.ofNat
    else t.toInt?
  match core? with
  | some n => .ok n
  | none => .error (.valueError ("invalid literal for int() with base 10: " ++ s))

/-- Python `int(v)` on an arbitrary value (truncates numbers toward zero). -/
def pyIntOfJVal : JVal → Except PyErr Int
  | .num q => .ok (Int.tdiv q.num (q.den : Int))
  | .str s => pyIntOfString s
  | .bool b => .ok (if b then 1 else 0)
  | .null => .error (.typeError "int() argument must not be None")
  | .arr _ => .error (.typeError "int() argument must not be a list")
  | .obj _ => .error (.typeError "int() argument must not be a dict")

/-- Python `float(v)` on an arbitrary value. -/
def pyFloatOfJVal : JVal → Except PyErr ℚ
  | .num q => .ok q
  | .str s => pyFloatOfString s
  | .bool b => .ok (if b then 1 else 0)
  | .null => .error (.typeError "float() argument must not be None")
  | .arr _ => .error (.typeError "float() argument must not be a list")
  | .obj _ => .error (.typeError "float() argument must not be a dict")

/-- `v.get(...)` requires a dict; anything else raises. -/
def asObj : JVal → Except PyErr JObj
  | .obj l => .ok l
  | _ => .error (.attributeError "value has no attribute get")

/-- `len(v)` / iteration / indexing require a list here; anything else raises. -/
def asList : JVal → Except PyErr (List JVal)
  | .arr xs => .ok xs
  | _ => .error (.typeError "value is not a list")

/-- Python list slice `l[:d]` (negative `d` drops from the end). -/
def pySliceTo {α : Type} (l : List α) (d : Int) : List α :=
  if 0 ≤ d then l.take d.toNat else l.take (l.length - (-d).toNat)

/-! ## Cache (`cache`, `cache_get`, `cache_set`) -/

/-- In-memory cache: key to (expiry timestamp, data). -/
abbrev Cache := List (String × (ℚ × JVal))

/-- `cache.get(key)`. -/
def alGet (c : Cache) (k : String) : Option (ℚ × JVal) :=
  (c.find? (fun p => p.1 == k)).map (fun p => p.2)

/-- `cache[key] = v`: overwrite in place or append. -/
def alSet (c : Cache) (k : String) (v : ℚ × JVal) : Cache :=
  if c.any (fun p => p.1 == k) then
    c.map (fun p => if p.1 == k then (p.1, v) else p)
  else c ++ [(k, v)]

/-- `cache.pop(key, None)`. -/
def alDel (c : Cache) (k : String) : Cache :=
  c.filter (fun p => p.1 != k)

/-- `cache_get`: cached data for `key` if present and unexpired; evicts an
expired entry. Returns the data (if any) and the possibly-updated cache. -/
def cache_get (key : String) (c : Cache) (now : ℚ) : Option JVal × Cache :=
  match alGet c key with
  | none => (none, c)
  | some (exp, data) =>
    if exp < now then (none, alDel c key) else (some data, c)

/-- `cache_set`: store `data` under `key` expiring `ttl` seconds from `now`. -/
def cache_set (key : String) (data : JVal) (ttl : ℚ) (c : Cache) (now : ℚ) : Cache :=
  alSet c key (now + ttl, data)

/-! ## Normalization (`normalize_forecast`) -/

/-- One normalized day, from the enumerate index `i` and the day dict `d`. -/
def normDay (i : Nat) (d : JObj) : JVal :=
  .obj [("day", .num ((i : ℚ) + 1)),
        ("summary", pyGetD d "summary" (.str "—")),
        ("tempMin", pyGet d "tempMin"),
        ("tempMax", pyGet d "tempMax")]

/-- The `enumerate` comprehension inside `normalize_forecast`. -/
def normDays (i : Nat) : List JObj → List JVal
  | [] => []
  | d :: ds => normDay i d :: normDays (i + 1) ds

/-- `normalize_forecast(days)`: uniform structure for frontend consumption. -/
def normalize_forecast (ds : List JObj) : JObj :=
  [("forecast", .arr (normDays 0 ds))]

/-! ## Open-Meteo adapter -/

/-- `map_open_meteo_code`: fixed lookup from weather code to label. -/
def map_open_meteo_code (code : Int) : String :=
  if code ∈ [(0 : Int)] then "Clear sky"
  else if code ∈ [(1 : Int)] then "Mainly clear"
  else if code ∈ [(2 : Int)] then "Partly cloudy"
  else if code ∈ [(3 : Int)] then "Overcast"
  else if code ∈ [(45 : Int), 48] then "Fog"
  else if code ∈ [(51 : Int), 53, 55] then "Drizzle"
  else if code ∈ [(56 : Int), 57] then "Freezing drizzle"
  else if code ∈ [(61 : Int), 63, 65] then "Rain"
  else if code ∈ [(66 : Int), 67] then "Freezing rain"
  else if code ∈ [(71 : Int), 73, 75, 77] then "Snow"
  else if code ∈ [(80 : Int), 81, 82] then "Rain showers"
  else if code ∈ [(85 : Int), 86] then "Snow showers"
  else if code ∈ [(95 : Int)] then "Thunderstorm"
  else if code ∈ [(96 : Int), 97, 99] then "Thunderstorm w/ hail"
  else "Code " ++ toString code

/-- All codes the lookup table maps to a label. -/
def omMappedCodes : List Int :=
  [0, 1, 2, 3, 45, 48, 51, 53, 55, 56, 57, 61, 63, 65, 66, 67,
   71, 73, 75, 77, 80, 81, 82, 85, 86, 95, 96, 97, 99]

/-- One loop iteration of `open_meteo_forecast` (index `i`). -/
def omEntry (times tmins tmaxs codes : List JVal) (i : Nat) : Except PyErr JObj :=
  match (match codes[i]? with
         | some cv => (pyIntOfJVal cv).map map_open_meteo_code
         | none => (.ok "—" : Except PyErr String)) with
  | .error e => .error e
  | .ok summary =>
  match (match tmins[i]? with
         | some v => (pyFloatOfJVal v).map JVal.num
         | none => (.ok JVal.null : Except PyErr JVal)) with
  | .error e => .error e
  | .ok tmin =>
  match (match tmaxs[i]? with
         | some v => (pyFloatOfJVal v).map JVal.num
         | none => (.ok JVal.null : Except PyErr JVal)) with
  | .error e => .error e
  | .ok tmax =>
    .ok [("date", times[i]?.getD .null),
         ("summary", .str summary),
         ("tempMin", tmin),
         ("tempMax", tmax)]

/-- The loop of `open_meteo_forecast`: the per-day dicts before normalization. -/
def open_meteo_days (j : JVal) (days : Int) : Except PyErr (List JObj) :=
  match asObj j with
  | .error e => .error e
  | .ok jl =>
  match asObj (pyGetD jl "daily" (.obj [])) with
  | .error e => .error e
  | .ok daily =>
  match asList (pyGetD daily "time" (.arr [])) with
  | .error e => .error e
  | .ok times =>
  match asList (pyGetD daily "temperature_2m_min" (.arr [])) with
  | .error e => .error e
  | .ok tmins =>
  match asList (pyGetD daily "temperature_2m_max" (.arr [])) with
  | .error e => .error e
  | .ok tmaxs =>
  match asList (pyGetD daily "weathercode" (.arr [])) with
  | .error e => .error e
  | .ok codes =>
    (List.range (min (times.length : Int) days).toNat).mapM (omEntry times tmins tmaxs codes)

/-- The response-processing part of `open_meteo_forecast`: from the upstream
JSON body `j` and the requested `days` to the normalized forecast dict. -/
def open_meteo_process (j : JVal) (days : Int) : Except PyErr JObj :=
  match open_meteo_days j days with
  | .error e => .error e
  | .ok ds => .ok (normalize_forecast ds)

/-! ## WillyWeather adapter -/

/-- The response-processing part of `willyweather_find_location_id`. -/
def ww_search_process (j : JVal) : Except PyErr (Option Int) :=
  match (match j with
         | .obj l => pyGet l "location"
         | _ => .null) with
  | .obj ll =>
    if ll.isEmpty then .ok none
    else (pyIntOfJVal (pyGet ll "id")).map some
  | _ => .ok none

/-- The entry-selection loop: first entry whose `night` field is falsy
(`if not e.get("night", False)`), raising if an entry is not a dict. -/
def wwChoose : List JVal → Except PyErr (Option JObj)
  | [] => .ok none
  | e :: rest =>
    match asObj e with
    | .error err => .error err
    | .ok el =>
      if truthy (pyGetD el "night" (.bool false)) then wwChoose rest
      else .ok (some el)

/-- Per-day processing in `willyweather_forecast_by_id`: the chosen entry's
fields, or nothing when the day contributes no output. -/
def wwDay (d : JVal) : Except PyErr (Option JObj) :=
  match asObj d with
  | .error err => .error err
  | .ok dl =>
  match asList (if truthy (pyGet dl "entries") then pyGet dl "entries" else .arr []) with
  | .error err => .error err
  | .ok entries =>
  match wwChoose entries with
  | .error err => .error err
  | .ok chosen0 =>
  match (if (match chosen0 with | some c => c.isEmpty | none => true)
             && !entries.isEmpty then
           match entries.head? with
           | some e => (asObj e).map some
           | none => (.ok none : Except PyErr (Option JObj))
         else .ok chosen0) with
  | .error err => .error err
  | .ok chosen1 =>
    match chosen1 with
    | some c =>
      if c.isEmpty then .ok none
      else .ok (some [("summary", pyOr (pyGet c "precis") (.str "—")),
                      ("tempMin", pyGet c "min"),
                      ("tempMax", pyGet c "max")])
    | none => .ok none

/-- Extraction and per-day loop of `willyweather_forecast_by_id`. -/
def ww_days_outs (j : JVal) : Except PyErr (List (Option JObj)) :=
  match asObj (if truthy j then j else .obj []) with
  | .error e => .error e
  | .ok jl =>
  match asObj (pyOr (pyGet jl "forecasts") (.obj [])) with
  | .error e => .error e
  | .ok fl =>
  match asObj (pyOr (pyGet fl "weather") (.obj [])) with
  | .error e => .error e
  | .ok wl =>
  match asList (pyOr (pyGet wl "days") (.arr [])) with
  | .error e => .error e
  | .ok days_arr => days_arr.mapM wwDay

/-- The response-processing part of `willyweather_forecast_by_id`. -/
def ww_forecast_process (j : JVal) (days : Int) : Except PyErr JObj :=
  match ww_days_outs j with
  | .error e => .error e
  | .ok outs => .ok (normalize_forecast (pySliceTo (outs.filterMap id) days))

/-! ## Request handler (`weather`) -/

/-- Process configuration read from the environment. -/
structure Env where
  weatherProvider : String
  useMock : Bool
  cacheTtl : ℚ
  willyKey : String

/-- What one upstream HTTP interaction would yield. -/
inductive Up where
  | timeout
  | httpError (status : Option Int)
  | exc (msg : String)
  | ok (j : JVal)

/-- Oracle for the three possible upstream interactions of one request. -/
structure Ups where
  openMeteo : Up
  wwSearch : Up
  wwForecast : Up

/-- Query parameters of one request (absent parameter = `none`). -/
structure Req where
  lat : Option String
  lon : Option String
  days : Option String
  provider : Option String

/-- Error classes caught by the handler's `try`/`except` around upstream work. -/
inductive TryErr where
  | timeout
  | httpErr (status : Int)
  | exc (msg : String)

/-- Run one upstream interaction inside the `try` block. -/
def liftUp : Up → Except TryErr JVal
  | .timeout => .error .timeout
  | .httpError st => .error (.httpErr (st.getD 502))
  | .exc m => .error (.exc m)
  | .ok j => .ok j

/-- A Python exception inside the `try` block is caught as `Exception`. -/
def liftPy : Except PyErr α → Except TryErr α
  | .error e => .error (.exc (pyErrMsg e))
  | .ok a => .ok a

/-- An ASCII apostrophe (kept out of string literals). -/
def squote : String := String.singleton (Char.ofNat 39)

/-- `(request.args.get('provider') or WEATHER_PROVIDER).strip().lower()`. -/
def resolvedProvider (env : Env) (req : Req) : String :=
  (match req.provider with
   | some p => if p = "" then env.weatherProvider else p
   | none => env.weatherProvider).trim.toLower

/-- `f"weather:{provider}:{lat}:{lon}:{days}"`. -/
def cacheKey (provider latS lonS : String) (days : Int) : String :=
  "weather:" ++ provider ++ ":" ++ latS ++ ":" ++ lonS ++ ":" ++ toString days

/-- `not x` on an optional query-parameter string. -/
def strFalsy : Option String → Bool
  | none => true
  | some s => s == ""

/-- The mock forecast list synthesized by the handler. -/
def mockForecast (days : Int) : List JVal :=
  (List.range days.toNat).map
    (fun (i : Nat) => JVal.obj
      [("day", .num ((i : ℚ) + 1)),
       ("summary", .str "Partly cloudy"),
       ("tempMin", .num (10 + (i : ℚ))),
       ("tempMax", .num (18 + (i : ℚ)))])

/-- The provider-dispatch `try` block of the handler. -/
def tryBranch (env : Env) (ups : Ups) (now : ℚ) (c1 : Cache) (provider : String)
    (la lo : ℚ) (days : Int) (key : String) :
    Except TryErr ((Nat × JVal) × Cache) :=
  if provider = "open-meteo" then
    match liftUp ups.openMeteo with
    | .error e => .error e
    | .ok j =>
    match liftPy (open_meteo_process j days) with
    | .error e => .error e
    | .ok norm =>
      let data := JVal.obj (dictUpdate
        [("location", .obj [("lat", .num la), ("lon", .num lo)]),
         ("days", .num (days : ℚ))] norm)
      .ok ((200, data), cache_set key data env.cacheTtl c1 now)
  else if provider = "willyweather" then
    match (if env.willyKey = "" then .error (.exc "WILLYWEATHER_API_KEY missing")
           else liftUp ups.wwSearch) with
    | .error e => .error e
    | .ok j =>
    match liftPy (ww_search_process j) with
    | .error e => .error e
    | .ok locId =>
    match (match locId with
           | some n => if n = 0 then none else some n
           | none => none) with
    | none =>
      .ok ((404, .obj [("error", .str "No WillyWeather location found for coordinates")]), c1)
    | some lid =>
      match (if env.willyKey = "" then .error (.exc "WILLYWEATHER_API_KEY missing")
             else liftUp ups.wwForecast) with
      | .error e => .error e
      | .ok j2 =>
      match liftPy (ww_forecast_process j2 days) with
      | .error e => .error e
      | .ok norm =>
        let data := JVal.obj (dictUpdate
          [("location", .obj [("lat", .num la), ("lon", .num lo),
                              ("willyWeatherLocationId", .num (lid : ℚ))]),
           ("days", .num (days : ℚ))] norm)
        .ok ((200, data), cache_set key data env.cacheTtl c1 now)
  else
    .ok ((400, .obj [("error", .str ("Unknown provider " ++ squote ++ provider ++ squote))]), c1)

/-- The mock-branch guard of the handler:
`provider == 'mock' or (provider == WEATHER_PROVIDER and USE_MOCK)`. -/
def mockCondP (env : Env) (provider : String) : Prop :=
  provider = "mock" ∨ (provider = env.weatherProvider ∧ env.useMock)

instance (env : Env) (provider : String) : Decidable (mockCondP env provider) := by
  unfold mockCondP
  infer_instance

/-- The handler after the cache lookup (mock branch, float parsing, provider
dispatch with its `except` clauses). -/
def weatherCore (env : Env) (ups : Ups) (now : ℚ) (c1 : Cache) (provider : String)
    (latS lonS : String) (days : Int) (key : String) :
    Except PyErr ((Nat × JVal) × Cache) :=
  if mockCondP env provider then
    match pyFloatOfString latS with
    | .error e => .error e
    | .ok la =>
      match pyFloatOfString lonS with
      | .error e => .error e
      | .ok lo =>
        let data := JVal.obj
          [("location", .obj [("lat", .num la), ("lon", .num lo)]),
           ("days", .num (days : ℚ)),
           ("mock", .bool true),
           ("forecast", .arr (mockForecast days))]
        .ok ((200, data), cache_set key data env.cacheTtl c1 now)
  else
    match pyFloatOfString latS with
    | .error _ => .ok ((400, .obj [("error", .str "Invalid lat/lon")]), c1)
    | .ok la =>
      match pyFloatOfString lonS with
      | .error _ => .ok ((400, .obj [("error", .str "Invalid lat/lon")]), c1)
      | .ok lo =>
        match tryBranch env ups now c1 provider la lo days key with
        | .ok r => .ok r
        | .error .timeout =>
          .ok ((504, .obj [("error", .str "Upstream timeout")]), c1)
        | .error (.httpErr st) =>
          .ok ((502, .obj [("error", .str "Upstream error"), ("status", .num (st : ℚ))]), c1)
        | .error (.exc m) =>
          .ok ((502, .obj [("error", .str "Upstream failure"), ("detail", .str m)]), c1)

/-- The `/api/weather` handler. A top-level `.error` is an exception escaping
the handler (a crash); `.ok ((status, body), cache)` is an HTTP response. -/
def weather (env : Env) (ups : Ups) (now : ℚ) (c : Cache) (req : Req) :
    Except PyErr ((Nat × JVal) × Cache) :=
  match pyIntOfString (req.days.getD "7") with
  | .error e => .error e
  | .ok days =>
    let provider := resolvedProvider env req
    if strFalsy req.lat || strFalsy req.lon then
      .ok ((400, .obj [("error", .str "lat and lon are required")]), c)
    else
      let latS := req.lat.getD ""
      let lonS := req.lon.getD ""
      let key := cacheKey provider latS lonS days
      match cache_get key c now with
      | (some d, c1) =>
        if truthy d then
          match d with
          | .obj l => .ok ((200, .obj (dictUpdate [("source", .str "cache")] l)), c1)
          | _ => .error (.typeError "jsonify argument after ** must be a mapping")
        else weatherCore env ups now c1 provider latS lonS days key
      | (none, c1) => weatherCore env ups now c1 provider latS lonS days key

/-! ## Derived definitions used to state the claims -/

/-- Spec-level entry selection for a WillyWeather day, written against the
amended claim: take the first entry whose night flag is falsy; if there is
none, or that entry is an empty object, fall back to the day's first entry. -/
def wwChooseSpec (es : List JObj) : Option JObj :=
  match es.find? (fun e => !truthy (pyGetD e "night" (.bool false))) with
  | some c => if c.isEmpty then es.head? else some c
  | none => es.head?

/-- Spec-level per-day output for a WillyWeather day: the chosen entry's
`precis` (with `"—"` fallback when falsy) and `min`/`max` fields, or nothing
when there is no chosen entry or the chosen entry is an empty object. -/
def wwDaySpec (es : List JObj) : Option JObj :=
  match wwChooseSpec es with
  | some c =>
    if c.isEmpty then none
    else some [("summary", pyOr (pyGet c "precis") (.str "—")),
               ("tempMin", pyGet c "min"),
               ("tempMax", pyGet c "max")]
  | none => none

/-- A WillyWeather day object whose entries are the given dicts. -/
def mkWWDay (es : List JObj) : JVal :=
  .obj [("entries", .arr (es.map JVal.obj))]

/-- A WillyWeather forecast response whose days have the given entry lists. -/
def mkWWBody (ds : List (List JObj)) : JVal :=
  .obj [("forecasts", .obj [("weather", .obj [("days", .arr (ds.map mkWWDay))])])]

/-- An Open-Meteo response with the given `daily` arrays (temperatures and
codes are numbers, as the API returns them). -/
def mkOMBody (times : List JVal) (tmins tmaxs : List ℚ) (codes : List Int) : JVal :=
  .obj [("daily", .obj
    [("time", .arr times),
     ("temperature_2m_min", .arr (tmins.map JVal.num)),
     ("temperature_2m_max", .arr (tmaxs.map JVal.num)),
     ("weathercode", .arr (codes.map (fun (k : Int) => JVal.num (k : ℚ))))])]

/-- The mock response body for `lat=1`, `lon=2`, `days=1`. -/
def mockData1 : JVal :=
  .obj [("location", .obj [("lat", .num 1), ("lon", .num 2)]),
        ("days", .num 1),
        ("mock", .bool true),
        ("forecast", .arr [.obj [("day", .num 1),
                                 ("summary", .str "Partly cloudy"),
                                 ("tempMin", .num 10),
                                 ("tempMax", .num 18)]])]

/-- An environment whose default provider is Open-Meteo with mock mode on. -/
def envOMmock : Env := ⟨"open-meteo", true, 300, ""⟩

/-- An environment with default mock provider and mock mode on. -/
def envMock : Env := ⟨"mock", true, 300, ""⟩

/-- An environment with a WillyWeather key, mock mode off. -/
def envWW : Env := ⟨"mock", false, 300, "k"⟩

/-- An upstream oracle where every network call would time out. -/
def upsNone : Ups := ⟨.timeout, .timeout, .timeout⟩

/-- The pair list of the mock response body. -/
def mockPairs (la lo : ℚ) (days : Int) : JObj :=
  [("location", .obj [("lat", .num la), ("lon", .num lo)]),
   ("days", .num (days : ℚ)),
   ("mock", .bool true),
   ("forecast", .arr (mockForecast days))]

/-- The mock response body synthesized by the handler. -/
def mockBody (la lo : ℚ) (days : Int) : JVal :=
  .obj (mockPairs la lo days)

/-- A small Open-Meteo body: one day, code 61, temps 5 and 9. -/
def omJex : JVal := mkOMBody [.str "d"] [5] [9] [61]

/-- The normalized dict the proxy builds from `omJex`. -/
def omNormEx : JObj :=
  normalize_forecast [[("date", .str "d"), ("summary", .str "Rain"),
                       ("tempMin", .num 5), ("tempMax", .num 9)]]

/-- Two WillyWeather days: one with a night and a day entry, one night-only. -/
def wwDsEx : List (List JObj) :=
  [[[("night", .bool true), ("precis", .str "x")],
    [("night", .bool false), ("precis", .str "Sunny"), ("min", .num 5), ("max", .num 20)]],
   [[("night", .bool true), ("precis", .str "y"), ("min", .num 1), ("max", .num 2)]]]

/-- The per-day dict the Open-Meteo loop builds at index `i`, described
directly in terms of the input arrays. -/
def omEntrySpec (times : List JVal) (tmins tmaxs : List ℚ) (codes : List Int)
    (i : Nat) : JObj :=
  [("date", times[i]?.getD .null),
   ("summary", .str (match codes[i]? with
                     | some k => map_open_meteo_code k
                     | none => "—")),
   ("tempMin", (match tmins[i]? with
                | some q => JVal.num q
                | none => JVal.null)),
   ("tempMax", (match tmaxs[i]? with
                | some q => JVal.num q
                | none => JVal.null))]

/-! ## Claim theorems: concrete failing runs -/

/-- C1: the handler does NOT convert every input error into an HTTP response.
A request with a non-integer `days` parameter raises a `ValueError` before any
validation or `try` block, and on the mock branch an unparseable `lat` raises
a `ValueError` outside the `try` block; both escape the handler instead of
becoming an HTTP status plus JSON error body. -/
theorem weather_crash_bad_days_and_mock_bad_lat :
    (weather envMock upsNone 0 [] ⟨some "1", some "2", some "abc", none⟩
      = .error (.valueError "invalid literal for int() with base 10: abc")) ∧
    (weather envMock upsNone 0 [] ⟨some "abc", some "2", none, some "mock"⟩
      = .error (.valueError "could not convert string to float: abc")) :=
  ⟨by with_unfolding_all rfl, by with_unfolding_all rfl⟩

/-- C6: with `lat` absent, the handler returns the missing-parameter 400 body
only when `days` parses; a non-integer `days` makes the `int()` call raise
before the lat/lon presence check, so the 400 is not produced "regardless of
the values of the other parameters". -/
theorem weather_missing_lat_not_always_400 :
    (weather envMock upsNone 0 [] ⟨none, some "2", some "abc", some "open-meteo"⟩
      = .error (.valueError "invalid literal for int() with base 10: abc")) ∧
    (weather envMock upsNone 0 [] ⟨none, some "2", some "5", some "open-meteo"⟩
      = .ok ((400, .obj [("error", .str "lat and lon are required")]), [])) :=
  ⟨by with_unfolding_all rfl, by with_unfolding_all rfl⟩

/-- C2 counterexample: with the default provider configured to `open-meteo`
and `USE_MOCK` on, a request resolving to provider `open-meteo` (not the mock
provider) still takes the mock branch: the handler returns the synthesized
mock body (marker `"mock": true`) without touching the upstream oracle. -/
theorem weather_mock_branch_for_nonmock_provider :
    (weather envOMmock upsNone 0 [] ⟨some "1", some "2", some "1", some "open-meteo"⟩
      = .ok ((200, mockData1), [("weather:open-meteo:1:2:1", (300, mockData1))])) ∧
    resolvedProvider envOMmock ⟨some "1", some "2", some "1", some "open-meteo"⟩ = "open-meteo" ∧
    ("open-meteo" : String) ≠ "mock" ∧
    jGet mockData1 "mock" = some (.bool true) :=
  ⟨by with_unfolding_all rfl, by with_unfolding_all rfl, by decide, rfl⟩

/-- C7 counterexample: a WillyWeather day with exactly one entry — the empty
object — is omitted from the output entirely (the `if chosen:` truthiness test
drops it), although the claim says only zero-entry days are omitted and that
the chosen entry's fields map into a `ForecastDay`. -/
theorem ww_day_with_one_entry_omitted :
    ww_forecast_process (mkWWBody [[[]]]) 1 = .ok [("forecast", .arr [])] ∧
    [([] : JObj)].length = 1 :=
  ⟨by with_unfolding_all rfl, rfl⟩

/-- C10 counterexample: a location search response whose location object has a
falsy `id` of `null` does not produce the 404 no-location response: `int(None)`
raises a `TypeError`, which the generic `except` clause turns into a 502
upstream-failure response. -/
theorem weather_ww_null_id_gives_502 :
    (weather envWW ⟨.timeout, .ok (.obj [("location", .obj [("id", .null)])]), .timeout⟩
        0 [] ⟨some "1", some "2", some "3", some "willyweather"⟩
      = .ok ((502, .obj [("error", .str "Upstream failure"),
                         ("detail", .str "int() argument must not be None")]), [])) ∧
    (502 : Nat) ≠ 404 :=
  ⟨by with_unfolding_all rfl, by decide⟩

/-! ## Helper lemmas -/

theorem liftPy_ok_iff {α : Type} {x : Except PyErr α} {a : α} :
    liftPy x = .ok a ↔ x = .ok a := by
  cases x <;> simp [liftPy]

theorem liftUp_ok_iff {u : Up} {j : JVal} :
    liftUp u = .ok j ↔ u = .ok j := by
  cases u <;> simp [liftUp]

theorem mapM_except_ok {ε α β : Type} (f : α → Except ε β) (g : α → β) :
    ∀ l : List α, (∀ x ∈ l, f x = .ok (g x)) → l.mapM f = .ok (l.map g) := by
  intro l
  induction l with
  | nil => intro _; rfl
  | cons x xs ih =>
    intro h
    rw [List.mapM_cons, h x (List.mem_cons_self x xs),
        ih (fun y hy => h y (List.mem_cons_of_mem x hy))]
    rfl

theorem alGet_alSet_self (c : Cache) (k : String) (v : ℚ × JVal) :
    alGet (alSet c k v) k = some v := by
  induction c with
  | nil => simp [alSet, alGet]
  | cons p rest ih =>
    by_cases hp : p.1 = k
    · simp [alSet, alGet, hp]
    · by_cases hr : rest.any (fun q => q.1 == k)
      · have hs : alSet rest k v = rest.map (fun q => if q.1 == k then (q.1, v) else q) := by
          simp [alSet, hr]
        rw [hs] at ih
        simpa [alSet, alGet, hp, hr] using ih
      · have hs : alSet rest k v = rest ++ [(k, v)] := by
          simp [alSet, hr]
        rw [hs] at ih
        simpa [alSet, alGet, hp, hr] using ih

theorem dictUpdate_location_days_forecast (a b f : JVal) :
    dictUpdate [("location", a), ("days", b)] [("forecast", f)]
      = [("location", a), ("days", b), ("forecast", f)] := by
  with_unfolding_all rfl

theorem dictUpdate_source_plain (s a b f : JVal) :
    dictUpdate [("source", s)] [("location", a), ("days", b), ("forecast", f)]
      = [("source", s), ("location", a), ("days", b), ("forecast", f)] := by
  with_unfolding_all rfl

theorem dictUpdate_source_mock (s a b m f : JVal) :
    dictUpdate [("source", s)] [("location", a), ("days", b), ("mock", m), ("forecast", f)]
      = [("source", s), ("location", a), ("days", b), ("mock", m), ("forecast", f)] := by
  with_unfolding_all rfl

theorem open_meteo_process_ok_shape {j : JVal} {days : Int} {norm : JObj}
    (h : open_meteo_process j days = .ok norm) :
    ∃ v, norm = [("forecast", v)] := by
  unfold open_meteo_process at h
  cases hd : open_meteo_days j days with
  | error e => rw [hd] at h; simp at h
  | ok ds =>
    rw [hd] at h
    simp only [Except.ok.injEq] at h
    subst h
    exact ⟨_, rfl⟩

theorem ww_forecast_process_ok_shape {j : JVal} {days : Int} {norm : JObj}
    (h : ww_forecast_process j days = .ok norm) :
    ∃ v, norm = [("forecast", v)] := by
  unfold ww_forecast_process at h
  cases hd : ww_days_outs j with
  | error e => rw [hd] at h; simp at h
  | ok outs =>
    rw [hd] at h
    simp only [Except.ok.injEq] at h
    subst h
    exact ⟨_, rfl⟩

theorem tryBranch_200 {env : Env} {ups : Ups} {now : ℚ} {c1 : Cache} {provider : String}
    {la lo : ℚ} {days : Int} {key : String} {body : JVal} {c2 : Cache}
    (h : tryBranch env ups now c1 provider la lo days key = .ok ((200, body), c2)) :
    c2 = cache_set key body env.cacheTtl c1 now ∧
    ∃ a b f, body = .obj [("location", a), ("days", b), ("forecast", f)] := by
  unfold tryBranch at h
  by_cases hp : provider = "open-meteo"
  · rw [if_pos hp] at h
    cases hu : liftUp ups.openMeteo with
    | error e => rw [hu] at h; simp at h
    | ok j =>
      rw [hu] at h
      dsimp only at h
      cases hpr : liftPy (open_meteo_process j days) with
      | error e => rw [hpr] at h; simp at h
      | ok norm =>
        rw [hpr] at h
        dsimp only at h
        obtain ⟨v, hv⟩ := open_meteo_process_ok_shape (liftPy_ok_iff.mp hpr)
        subst hv
        rw [dictUpdate_location_days_forecast] at h
        simp only [Except.ok.injEq, Prod.mk.injEq] at h
        obtain ⟨⟨-, hbody⟩, hc⟩ := h
        subst hbody
        exact ⟨hc.symm, _, _, _, rfl⟩
  · rw [if_neg hp] at h
    by_cases hw : provider = "willyweather"
    · rw [if_pos hw] at h
      by_cases hk : env.willyKey = ""
      · rw [if_pos hk] at h; simp at h
      · rw [if_neg hk] at h
        cases hu : liftUp ups.wwSearch with
        | error e => rw [hu] at h; simp at h
        | ok j =>
          rw [hu] at h
          dsimp only at h
          cases hpr : liftPy (ww_search_process j) with
          | error e => rw [hpr] at h; simp at h
          | ok locId =>
            rw [hpr] at h
            dsimp only at h
            cases locId with
            | none => simp at h
            | some n =>
              dsimp only at h
              by_cases hn : n = 0
              · rw [if_pos hn] at h; simp at h
              · rw [if_neg hn] at h
                dsimp only at h
                rw [if_neg hk] at h
                cases hu2 : liftUp ups.wwForecast with
                | error e => rw [hu2] at h; simp at h
                | ok j2 =>
                  rw [hu2] at h
                  dsimp only at h
                  cases hpr2 : liftPy (ww_forecast_process j2 days) with
                  | error e => rw [hpr2] at h; simp at h
                  | ok norm =>
                    rw [hpr2] at h
                    dsimp only at h
                    obtain ⟨v, hv⟩ := ww_forecast_process_ok_shape (liftPy_ok_iff.mp hpr2)
                    subst hv
                    rw [dictUpdate_location_days_forecast] at h
                    simp only [Except.ok.injEq, Prod.mk.injEq] at h
                    obtain ⟨⟨-, hbody⟩, hc⟩ := h
                    subst hbody
                    exact ⟨hc.symm, _, _, _, rfl⟩
    · rw [if_neg hw] at h
      simp at h

theorem weatherCore_200 {env : Env} {ups : Ups} {now : ℚ} {c1 : Cache} {provider : String}
    {latS lonS : String} {days : Int} {key : String} {body : JVal} {c2 : Cache}
    (h : weatherCore env ups now c1 provider latS lonS days key = .ok ((200, body), c2)) :
    c2 = cache_set key body env.cacheTtl c1 now ∧
    ((mockCondP env provider ∧
        ∃ a b f, body = .obj [("location", a), ("days", b), ("mock", .bool true), ("forecast", f)]) ∨
     (¬ mockCondP env provider ∧
        ∃ a b f, body = .obj [("location", a), ("days", b), ("forecast", f)])) := by
  unfold weatherCore at h
  by_cases hm : mockCondP env provider
  · rw [if_pos hm] at h
    cases hla : pyFloatOfString latS with
    | error e => rw [hla] at h; simp at h
    | ok la =>
      rw [hla] at h
      dsimp only at h
      cases hlo : pyFloatOfString lonS with
      | error e => rw [hlo] at h; simp at h
      | ok lo =>
        rw [hlo] at h
        dsimp only at h
        simp only [Except.ok.injEq, Prod.mk.injEq] at h
        obtain ⟨⟨-, hbody⟩, hc⟩ := h
        subst hbody
        exact ⟨hc.symm, .inl ⟨hm, _, _, _, rfl⟩⟩
  · rw [if_neg hm] at h
    cases hla : pyFloatOfString latS with
    | error e => rw [hla] at h; simp at h
    | ok la =>
      rw [hla] at h
      dsimp only at h
      cases hlo : pyFloatOfString lonS with
      | error e => rw [hlo] at h; simp at h
      | ok lo =>
        rw [hlo] at h
        dsimp only at h
        cases htb : tryBranch env ups now c1 provider la lo days key with
        | error te =>
          rw [htb] at h
          cases te <;> simp at h
        | ok r =>
          rw [htb] at h
          dsimp only at h
          simp only [Except.ok.injEq] at h
          rw [h] at htb
          obtain ⟨hc, a, b, f, hb⟩ := tryBranch_200 htb
          exact ⟨hc, .inr ⟨hm, a, b, f, hb⟩⟩

theorem weather_miss {env : Env} {ups : Ups} {now : ℚ} {c c1 : Cache} {req : Req} {days : Int}
    (hdays : pyIntOfString (req.days.getD "7") = .ok days)
    (hlat : strFalsy req.lat = false) (hlon : strFalsy req.lon = false)
    (hcache : cache_get (cacheKey (resolvedProvider env req) (req.lat.getD "")
        (req.lon.getD "") days) c now = (none, c1)) :
    weather env ups now c req
      = weatherCore env ups now c1 (resolvedProvider env req) (req.lat.getD "")
          (req.lon.getD "") days
          (cacheKey (resolvedProvider env req) (req.lat.getD "") (req.lon.getD "") days) := by
  unfold weather
  rw [hdays]
  dsimp only
  rw [if_neg (by simp [hlat, hlon])]
  rw [hcache]

theorem weatherCore_mock {env : Env} {ups : Ups} {now : ℚ} {c1 : Cache} {provider : String}
    {latS lonS : String} {days : Int} {key : String} {la lo : ℚ}
    (hm : mockCondP env provider)
    (hla : pyFloatOfString latS = .ok la) (hlo : pyFloatOfString lonS = .ok lo) :
    weatherCore env ups now c1 provider latS lonS days key
      = .ok ((200, mockBody la lo days),
             cache_set key (mockBody la lo days) env.cacheTtl c1 now) := by
  unfold weatherCore
  rw [if_pos hm, hla]
  dsimp only
  rw [hlo]
  dsimp only
  rfl

theorem mockForecast_length (days : Int) : (mockForecast days).length = days.toNat := by
  unfold mockForecast
  rw [List.length_map, List.length_range]

theorem mockForecast_getElem? (days : Int) (i : Nat) (hi : i < days.toNat) :
    (mockForecast days)[i]? = some (JVal.obj
      [("day", .num ((i : ℚ) + 1)),
       ("summary", .str "Partly cloudy"),
       ("tempMin", .num (10 + (i : ℚ))),
       ("tempMax", .num (18 + (i : ℚ)))]) := by
  unfold mockForecast
  rw [List.getElem?_map, List.getElem?_range hi]
  rfl

theorem normDays_length (ds : List JObj) : ∀ i, (normDays i ds).length = ds.length := by
  induction ds with
  | nil => intro i; rfl
  | cons d rest ih => intro i; simp [normDays, ih (i + 1)]

theorem normDays_getElem? (ds : List JObj) :
    ∀ i k, (normDays i ds)[k]? = ds[k]?.map (fun d => normDay (i + k) d) := by
  induction ds with
  | nil => intro i k; simp [normDays]
  | cons d rest ih =>
    intro i k
    cases k with
    | zero => simp [normDays]
    | succ k =>
      simp only [normDays, List.getElem?_cons_succ, ih (i + 1) k]
      have : i + 1 + k = i + (k + 1) := by omega
      rw [this]

/-- C3: a mock-provider request (cache miss, parseable lat/lon, positive
integer days) returns 200 with a forecast of exactly `days` entries whose
`day` fields are `i + 1` at position `i` (hence `1..days` in increasing
order), and every entry has `tempMin < tempMax`. -/
theorem weather_mock_forecast_valid {env : Env} {ups : Ups} {now : ℚ} {c c1 : Cache}
    {req : Req} {days : Int} {la lo : ℚ}
    (hdays : pyIntOfString (req.days.getD "7") = .ok days) (hpos : 0 < days)
    (hlat : strFalsy req.lat = false) (hlon : strFalsy req.lon = false)
    (hm : mockCondP env (resolvedProvider env req))
    (hla : pyFloatOfString (req.lat.getD "") = .ok la)
    (hlo : pyFloatOfString (req.lon.getD "") = .ok lo)
    (hcache : cache_get (cacheKey (resolvedProvider env req) (req.lat.getD "")
        (req.lon.getD "") days) c now = (none, c1)) :
    ∃ c2, weather env ups now c req = .ok ((200, mockBody la lo days), c2) ∧
      ∃ fc : List JVal, jGet (mockBody la lo days) "forecast" = some (.arr fc) ∧
        (fc.length : Int) = days ∧
        ∀ i : Nat, i < fc.length →
          ∃ e : JObj, fc[i]? = some (.obj e) ∧
            objGet? e "day" = some (.num ((i : ℚ) + 1)) ∧
            ∃ tmin tmax : ℚ,
              objGet? e "tempMin" = some (.num tmin) ∧
              objGet? e "tempMax" = some (.num tmax) ∧ tmin < tmax := by
  have hrun : weather env ups now c req
      = .ok ((200, mockBody la lo days),
             cache_set (cacheKey (resolvedProvider env req) (req.lat.getD "")
               (req.lon.getD "") days) (mockBody la lo days) env.cacheTtl c1 now) := by
    rw [weather_miss hdays hlat hlon hcache, weatherCore_mock hm hla hlo]
  refine ⟨_, hrun, mockForecast days, by with_unfolding_all rfl, ?_, ?_⟩
  · rw [mockForecast_length]
    exact Int.toNat_of_nonneg (le_of_lt hpos)
  · intro i hi
    rw [mockForecast_length] at hi
    refine ⟨_, mockForecast_getElem? days i hi, by with_unfolding_all rfl,
            10 + i, 18 + i, by with_unfolding_all rfl, by with_unfolding_all rfl, ?_⟩
    exact add_lt_add_right (by norm_num) (i : ℚ)

theorem weather_mock_forecast_valid_witness :
    ∃ c2, weather envMock upsNone 0 [] ⟨some "1", some "2", some "2", none⟩
        = .ok ((200, mockBody 1 2 2), c2) ∧
      ∃ fc : List JVal, jGet (mockBody 1 2 2) "forecast" = some (.arr fc) ∧
        (fc.length : Int) = 2 ∧
        ∀ i : Nat, i < fc.length →
          ∃ e : JObj, fc[i]? = some (.obj e) ∧
            objGet? e "day" = some (.num ((i : ℚ) + 1)) ∧
            ∃ tmin tmax : ℚ,
              objGet? e "tempMin" = some (.num tmin) ∧
              objGet? e "tempMax" = some (.num tmax) ∧ tmin < tmax :=
  weather_mock_forecast_valid (by with_unfolding_all rfl) (by decide)
    (by with_unfolding_all rfl) (by with_unfolding_all rfl)
    (Or.inl (by with_unfolding_all rfl)) (by with_unfolding_all rfl)
    (by with_unfolding_all rfl) (by with_unfolding_all rfl)

/-- C2 (amended): on a cache miss with parseable inputs, the handler takes the
mock branch (200 response carrying the `"mock": true` marker) exactly when the
resolved provider is `"mock"`, or the resolved provider equals the configured
default provider and the `USE_MOCK` switch is on — not exactly when the
resolved provider is the mock provider. -/
theorem weather_mock_branch_iff {env : Env} {ups : Ups} {now : ℚ} {c c1 : Cache}
    {req : Req} {days : Int} {la lo : ℚ}
    (hdays : pyIntOfString (req.days.getD "7") = .ok days)
    (hlat : strFalsy req.lat = false) (hlon : strFalsy req.lon = false)
    (hla : pyFloatOfString (req.lat.getD "") = .ok la)
    (hlo : pyFloatOfString (req.lon.getD "") = .ok lo)
    (hcache : cache_get (cacheKey (resolvedProvider env req) (req.lat.getD "")
        (req.lon.getD "") days) c now = (none, c1)) :
    (∃ l c2, weather env ups now c req = .ok ((200, .obj l), c2) ∧
        objGet? l "mock" = some (.bool true))
      ↔ mockCondP env (resolvedProvider env req) := by
  rw [weather_miss hdays hlat hlon hcache]
  constructor
  · rintro ⟨l, c2, hrun, hmock⟩
    by_contra hm
    obtain ⟨-, hsh⟩ := weatherCore_200 hrun
    rcases hsh with ⟨hm2, -⟩ | ⟨-, a, b, f, hb⟩
    · exact hm hm2
    · injection hb with hb
      subst hb
      simp [objGet?, List.find?] at hmock
  · intro hm
    rw [weatherCore_mock hm hla hlo]
    exact ⟨mockPairs la lo days, _, rfl, by with_unfolding_all rfl⟩

theorem weather_mock_branch_iff_witness :
    (∃ l c2, weather envMock upsNone 0 [] ⟨some "1", some "2", some "2", none⟩
        = .ok ((200, .obj l), c2) ∧
        objGet? l "mock" = some (.bool true))
      ↔ mockCondP envMock (resolvedProvider envMock ⟨some "1", some "2", some "2", none⟩) :=
  weather_mock_branch_iff (by with_unfolding_all rfl)
    (by with_unfolding_all rfl) (by with_unfolding_all rfl)
    (by with_unfolding_all rfl) (by with_unfolding_all rfl) (by with_unfolding_all rfl)

/-- C9: normalization emits, for the day object at position `i`, exactly the
fields `day`/`summary`/`tempMin`/`tempMax` with `day = i + 1` (1-based
position), and no provider-supplied `date` field survives. -/
theorem normalize_forecast_day_fields (ds : List JObj) :
    ∃ fc : List JVal, normalize_forecast ds = [("forecast", .arr fc)] ∧
      fc.length = ds.length ∧
      ∀ i : Nat, i < ds.length →
        ∃ e : JObj, fc[i]? = some (.obj e) ∧
          e.map Prod.fst = ["day", "summary", "tempMin", "tempMax"] ∧
          objGet? e "day" = some (.num ((i : ℚ) + 1)) ∧
          objGet? e "date" = none := by
  refine ⟨normDays 0 ds, rfl, normDays_length ds 0, ?_⟩
  intro i hi
  rw [normDays_getElem? ds 0 i]
  simp only [Nat.zero_add]
  cases hd : ds[i]? with
  | none =>
    rw [List.getElem?_eq_none_iff] at hd
    omega
  | some d =>
    refine ⟨_, rfl, rfl, by with_unfolding_all rfl, by with_unfolding_all rfl⟩

theorem normalize_forecast_day_fields_witness :
    ∃ fc : List JVal,
      normalize_forecast [[("date", JVal.str "2025-01-01"), ("summary", JVal.str "Rain")]]
        = [("forecast", .arr fc)] ∧
      fc.length = 1 ∧
      ∀ i : Nat, i < 1 →
        ∃ e : JObj, fc[i]? = some (.obj e) ∧
          e.map Prod.fst = ["day", "summary", "tempMin", "tempMax"] ∧
          objGet? e "day" = some (.num ((i : ℚ) + 1)) ∧
          objGet? e "date" = none :=
  normalize_forecast_day_fields [[("date", JVal.str "2025-01-01"), ("summary", JVal.str "Rain")]]

theorem cache_get_after_set (key : String) (body : JVal) (ttl : ℚ) (c1 : Cache)
    (now t2 : ℚ) (h : t2 ≤ now + ttl) :
    cache_get key (cache_set key body ttl c1 now) t2
      = (some body, cache_set key body ttl c1 now) := by
  unfold cache_get cache_set
  rw [alGet_alSet_self]
  dsimp only
  rw [if_neg (not_lt.mpr h)]

/-- C4: after a request stores a 200 response in the cache (cache miss at time
`now`), the identical request at any time `t2` within the TTL window is
answered from the cache: 200, a `source: "cache"` marker, and a `forecast`
value identical to the first response's, independent of the second request's
upstream oracle. -/
theorem weather_cache_hit_after_store {env : Env} {ups1 ups2 : Ups} {now t2 : ℚ}
    {c c1 c2 : Cache} {req : Req} {days : Int} {body : JVal}
    (hdays : pyIntOfString (req.days.getD "7") = .ok days)
    (hlat : strFalsy req.lat = false) (hlon : strFalsy req.lon = false)
    (hcache : cache_get (cacheKey (resolvedProvider env req) (req.lat.getD "")
        (req.lon.getD "") days) c now = (none, c1))
    (hrun1 : weather env ups1 now c req = .ok ((200, body), c2))
    (ht2 : t2 ≤ now + env.cacheTtl) :
    ∃ l2 f, weather env ups2 t2 c2 req = .ok ((200, .obj l2), c2) ∧
      objGet? l2 "source" = some (.str "cache") ∧
      jGet body "forecast" = some f ∧ objGet? l2 "forecast" = some f := by
  rw [weather_miss hdays hlat hlon hcache] at hrun1
  obtain ⟨hc2, hsh⟩ := weatherCore_200 hrun1
  subst hc2
  unfold weather
  rw [hdays]
  dsimp only
  rw [if_neg (by simp [hlat, hlon]), cache_get_after_set _ _ _ _ _ _ ht2]
  dsimp only
  rcases hsh with ⟨-, a, b, f, hb⟩ | ⟨-, a, b, f, hb⟩
  · subst hb
    simp only [truthy, List.isEmpty_cons, Bool.not_false, if_true]
    rw [dictUpdate_source_mock]
    exact ⟨_, f, rfl, by with_unfolding_all rfl, by with_unfolding_all rfl,
           by with_unfolding_all rfl⟩
  · subst hb
    simp only [truthy, List.isEmpty_cons, Bool.not_false, if_true]
    rw [dictUpdate_source_plain]
    exact ⟨_, f, rfl, by with_unfolding_all rfl, by with_unfolding_all rfl,
           by with_unfolding_all rfl⟩

theorem weather_cache_hit_after_store_witness :
    ∃ l2 f, weather envMock upsNone 100
        [("weather:mock:1:2:1", (300, mockBody 1 2 1))]
        ⟨some "1", some "2", some "1", none⟩
        = .ok ((200, .obj l2), [("weather:mock:1:2:1", (300, mockBody 1 2 1))]) ∧
      objGet? l2 "source" = some (.str "cache") ∧
      jGet (mockBody 1 2 1) "forecast" = some f ∧ objGet? l2 "forecast" = some f :=
  @weather_cache_hit_after_store envMock upsNone upsNone 0 100 [] []
    [("weather:mock:1:2:1", (300, mockBody 1 2 1))]
    ⟨some "1", some "2", some "1", none⟩ 1 (mockBody 1 2 1)
    (by with_unfolding_all rfl) (by with_unfolding_all rfl) (by with_unfolding_all rfl)
    (by with_unfolding_all rfl) (by with_unfolding_all rfl) (by norm_num [envMock])

theorem weatherCore_open_meteo {env : Env} {ups : Ups} {now : ℚ} {c1 : Cache}
    {latS lonS : String} {days : Int} {key : String} {la lo : ℚ} {j : JVal} {norm : JObj}
    (hnm : ¬ mockCondP env "open-meteo")
    (hla : pyFloatOfString latS = .ok la) (hlo : pyFloatOfString lonS = .ok lo)
    (hup : ups.openMeteo = .ok j)
    (hproc : open_meteo_process j days = .ok norm) :
    weatherCore env ups now c1 "open-meteo" latS lonS days key
      = .ok ((200, .obj (dictUpdate
            [("location", .obj [("lat", .num la), ("lon", .num lo)]),
             ("days", .num (days : ℚ))] norm)),
           cache_set key (.obj (dictUpdate
            [("location", .obj [("lat", .num la), ("lon", .num lo)]),
             ("days", .num (days : ℚ))] norm)) env.cacheTtl c1 now) := by
  unfold weatherCore
  rw [if_neg hnm, hla]
  dsimp only
  rw [hlo]
  dsimp only
  unfold tryBranch
  rw [if_pos rfl, hup]
  dsimp only [liftUp]
  rw [hproc]
  dsimp only [liftPy]

/-- C5: a cache entry whose expiry is in the past is evicted on read
(`cache_get` returns `none` and deletes the key), and the identical request
arriving after the TTL elapsed is served by a fresh upstream fetch whose
response carries no `source: "cache"` marker. -/
theorem cache_expired_evicts_and_fresh_fetch :
    (∀ (key : String) (c : Cache) (now exp : ℚ) (data : JVal),
        alGet c key = some (exp, data) → exp < now →
        cache_get key c now = (none, alDel c key)) ∧
    (∀ (env : Env) (ups : Ups) (now exp : ℚ) (c : Cache) (req : Req) (days : Int)
        (data j : JVal) (norm : JObj) (la lo : ℚ),
        pyIntOfString (req.days.getD "7") = .ok days →
        strFalsy req.lat = false → strFalsy req.lon = false →
        pyFloatOfString (req.lat.getD "") = .ok la →
        pyFloatOfString (req.lon.getD "") = .ok lo →
        resolvedProvider env req = "open-meteo" →
        ¬ mockCondP env "open-meteo" →
        alGet c (cacheKey (resolvedProvider env req) (req.lat.getD "")
          (req.lon.getD "") days) = some (exp, data) →
        exp < now →
        ups.openMeteo = .ok j →
        open_meteo_process j days = .ok norm →
        ∃ l c2, weather env ups now c req = .ok ((200, .obj l), c2) ∧
          objGet? l "source" = none) := by
  have parta : ∀ (key : String) (c : Cache) (now exp : ℚ) (data : JVal),
      alGet c key = some (exp, data) → exp < now →
      cache_get key c now = (none, alDel c key) := by
    intro key c now exp data h hexp
    unfold cache_get
    rw [h]
    dsimp only
    rw [if_pos hexp]
  refine ⟨parta, ?_⟩
  intro env ups now exp c req days data j norm la lo hdays hlat hlon hla hlo hp hnm hal hexp hup hproc
  have hcache : cache_get (cacheKey (resolvedProvider env req) (req.lat.getD "")
      (req.lon.getD "") days) c now
      = (none, alDel c (cacheKey (resolvedProvider env req) (req.lat.getD "")
          (req.lon.getD "") days)) :=
    parta _ c now exp data hal hexp
  rw [weather_miss hdays hlat hlon hcache, hp, weatherCore_open_meteo hnm hla hlo hup hproc]
  obtain ⟨v, hv⟩ := open_meteo_process_ok_shape hproc
  subst hv
  rw [dictUpdate_location_days_forecast]
  exact ⟨_, _, rfl, by with_unfolding_all rfl⟩

theorem cache_expired_evicts_and_fresh_fetch_witness :
    (cache_get "k" [("k", (0, .null))] 1 = (none, alDel [("k", (0, .null))] "k")) ∧
    (∃ l c2, weather envWW ⟨.ok omJex, .timeout, .timeout⟩ 1
        [("weather:open-meteo:1:2:1", (0, .null))]
        ⟨some "1", some "2", some "1", some "open-meteo"⟩
        = .ok ((200, .obj l), c2) ∧ objGet? l "source" = none) :=
  ⟨cache_expired_evicts_and_fresh_fetch.1 "k" [("k", (0, .null))] 1 0 .null
      (by with_unfolding_all rfl) (by norm_num),
   cache_expired_evicts_and_fresh_fetch.2 envWW ⟨.ok omJex, .timeout, .timeout⟩ 1 0
      [("weather:open-meteo:1:2:1", (0, .null))]
      ⟨some "1", some "2", some "1", some "open-meteo"⟩ 1 .null omJex omNormEx 1 2
      (by with_unfolding_all rfl) (by with_unfolding_all rfl) (by with_unfolding_all rfl)
      (by with_unfolding_all rfl) (by with_unfolding_all rfl) (by with_unfolding_all rfl)
      (by decide) (by with_unfolding_all rfl) (by norm_num) rfl
      (by with_unfolding_all rfl)⟩

/-- C10 (amended): when the WillyWeather location search yields a location
object whose `id` converts to the integer `0`, the handler responds 404 with
the no-location-found body, exactly as if no location had been returned.
(For other falsy ids such as `null` the conversion raises and a 502 results.) -/
theorem weather_ww_id0_404 {env : Env} {ups : Ups} {now : ℚ} {c c1 : Cache}
    {req : Req} {days : Int} {la lo : ℚ} {jl ll : JObj}
    (hdays : pyIntOfString (req.days.getD "7") = .ok days)
    (hlat : strFalsy req.lat = false) (hlon : strFalsy req.lon = false)
    (hla : pyFloatOfString (req.lat.getD "") = .ok la)
    (hlo : pyFloatOfString (req.lon.getD "") = .ok lo)
    (hcache : cache_get (cacheKey (resolvedProvider env req) (req.lat.getD "")
        (req.lon.getD "") days) c now = (none, c1))
    (hp : resolvedProvider env req = "willyweather")
    (hnm : ¬ mockCondP env "willyweather")
    (hk : ¬ env.willyKey = "")
    (hsearch : ups.wwSearch = .ok (.obj jl))
    (hloc : pyGet jl "location" = .obj ll)
    (hll : ll ≠ [])
    (hid : pyIntOfJVal (pyGet ll "id") = .ok 0) :
    weather env ups now c req
      = .ok ((404, .obj [("error",
          .str "No WillyWeather location found for coordinates")]), c1) := by
  have hsp : ww_search_process (.obj jl) = .ok (some 0) := by
    unfold ww_search_process
    dsimp only
    rw [hloc]
    dsimp only
    cases ll with
    | nil => exact absurd rfl hll
    | cons x xs =>
      dsimp only [List.isEmpty]
      rw [hid]
      rfl
  rw [weather_miss hdays hlat hlon hcache, hp]
  unfold weatherCore
  rw [if_neg hnm, hla]
  dsimp only
  rw [hlo]
  dsimp only
  unfold tryBranch
  rw [if_neg (by decide), if_pos rfl, if_neg hk, hsearch]
  dsimp only [liftUp]
  rw [hsp]
  dsimp only [liftPy]
  rw [if_pos rfl]

theorem weather_ww_id0_404_witness :
    weather envWW ⟨.timeout, .ok (.obj [("location", .obj [("id", .num 0)])]), .timeout⟩
        0 [] ⟨some "1", some "2", some "1", some "willyweather"⟩
      = .ok ((404, .obj [("error",
          .str "No WillyWeather location found for coordinates")]), []) :=
  @weather_ww_id0_404 envWW
    ⟨.timeout, .ok (.obj [("location", .obj [("id", .num 0)])]), .timeout⟩ 0 [] []
    ⟨some "1", some "2", some "1", some "willyweather"⟩ 1 1 2
    [("location", .obj [("id", .num 0)])] [("id", .num 0)]
    (by with_unfolding_all rfl) (by with_unfolding_all rfl) (by with_unfolding_all rfl)
    (by with_unfolding_all rfl) (by with_unfolding_all rfl) (by with_unfolding_all rfl)
    (by with_unfolding_all rfl) (by decide) (by decide) rfl
    (by with_unfolding_all rfl) (List.cons_ne_nil _ _) (by with_unfolding_all rfl)

theorem wwChoose_map_obj (es : List JObj) :
    wwChoose (es.map JVal.obj)
      = .ok (es.find? (fun e => !truthy (pyGetD e "night" (.bool false)))) := by
  induction es with
  | nil => rfl
  | cons e rest ih =>
    rw [List.map_cons, List.find?_cons]
    dsimp only [wwChoose, asObj]
    cases hn : truthy (pyGetD e "night" (.bool false)) with
    | true => simp only [hn, Bool.not_true, if_true, ih]
    | false => simp [hn]

theorem wwDay_mk (es : List JObj) : wwDay (mkWWDay es) = .ok (wwDaySpec es) := by
  cases es with
  | nil => with_unfolding_all rfl
  | cons e rest =>
    unfold wwDay mkWWDay
    dsimp only [asObj]
    rw [List.map_cons]
    have hent : pyGet [("entries", JVal.arr (JVal.obj e :: rest.map JVal.obj))] "entries"
        = .arr (JVal.obj e :: rest.map JVal.obj) := by with_unfolding_all rfl
    rw [hent]
    have htr : truthy (.arr (JVal.obj e :: rest.map JVal.obj)) = true := rfl
    rw [htr, if_pos rfl]
    dsimp only [asList]
    rw [show (JVal.obj e :: rest.map JVal.obj) = (e :: rest).map JVal.obj from
          (List.map_cons _ _ _).symm, wwChoose_map_obj]
    dsimp only
    cases hf : List.find? (fun x => !truthy (pyGetD x "night" (.bool false))) (e :: rest) with
    | none =>
      dsimp only
      unfold wwDaySpec wwChooseSpec
      rw [hf]
      simp only [List.map_cons, List.isEmpty_cons, Bool.not_false, Bool.and_self,
                 if_pos rfl, List.head?, asObj, Except.map]
      cases he : e.isEmpty <;> simp [he]
    | some c =>
      dsimp only
      unfold wwDaySpec wwChooseSpec
      rw [hf]
      cases hc : c.isEmpty with
      | true =>
        simp only [hc, List.map_cons, List.isEmpty_cons, Bool.not_false, Bool.and_self,
                   if_pos rfl, List.head?, asObj, Except.map]
        cases he : e.isEmpty <;> simp [he]
      | false =>
        simp [hc]

theorem pyOr_arr (l : List JVal) : pyOr (.arr l) (.arr []) = .arr l := by
  cases l <;> rfl

theorem mapM_wwDay_mk (ds : List (List JObj)) :
    (ds.map mkWWDay).mapM wwDay = .ok (ds.map wwDaySpec) := by
  induction ds with
  | nil => rfl
  | cons d rest ih =>
    rw [List.map_cons, List.mapM_cons, wwDay_mk, List.map_cons, ih]
    rfl

theorem ww_days_outs_arr (L : List JVal) :
    ww_days_outs (.obj [("forecasts", .obj [("weather", .obj [("days", .arr L)])])])
      = L.mapM wwDay := by
  unfold ww_days_outs
  have h1 : truthy (JVal.obj
      [("forecasts", JVal.obj [("weather", JVal.obj [("days", JVal.arr L)])])]) = true := rfl
  rw [h1, if_pos rfl]
  dsimp only [asObj]
  have h2 : pyOr (pyGet [("forecasts", JVal.obj [("weather", JVal.obj [("days", JVal.arr L)])])]
      "forecasts") (.obj []) = JVal.obj [("weather", JVal.obj [("days", JVal.arr L)])] := by
    with_unfolding_all rfl
  rw [h2]
  dsimp only [asObj]
  have h3 : pyOr (pyGet [("weather", JVal.obj [("days", JVal.arr L)])] "weather") (.obj [])
      = JVal.obj [("days", JVal.arr L)] := by
    with_unfolding_all rfl
  rw [h3]
  dsimp only [asObj]
  have h4 : pyGet [("days", JVal.arr L)] "days" = JVal.arr L := by
    with_unfolding_all rfl
  rw [h4, pyOr_arr]
  dsimp only [asList]

theorem ww_days_outs_mk (ds : List (List JObj)) :
    ww_days_outs (mkWWBody ds) = .ok (ds.map wwDaySpec) := by
  unfold mkWWBody
  rw [ww_days_outs_arr, mapM_wwDay_mk]

/-- C7 (amended): the WillyWeather adapter equals its spec-level description:
per day, take the first entry whose night flag is falsy; if there is none, or
it is an empty object, fall back to the day's first entry; a day with zero
entries — or whose chosen entry is an empty object — is omitted entirely; the
chosen entry's `precis` (with `"—"` fallback when falsy) and `min`/`max`
fields become the ForecastDay's `summary`/`tempMin`/`tempMax`; the output is
truncated to the requested (nonnegative) day count and then normalized. -/
theorem ww_forecast_matches_dayspec (ds : List (List JObj)) (d : Int) (hd : 0 ≤ d) :
    ww_forecast_process (mkWWBody ds) d
      = .ok (normalize_forecast ((ds.filterMap wwDaySpec).take d.toNat)) := by
  unfold ww_forecast_process
  rw [ww_days_outs_mk]
  dsimp only
  have h1 : (ds.map wwDaySpec).filterMap id = ds.filterMap wwDaySpec := by
    rw [List.filterMap_map]
    rfl
  rw [h1]
  unfold pySliceTo
  rw [if_pos hd]

theorem ww_forecast_matches_dayspec_witness :
    0 ≤ (2 : Int) ∧
    ww_forecast_process (mkWWBody wwDsEx) 2
      = .ok (normalize_forecast ((wwDsEx.filterMap wwDaySpec).take (2 : Int).toNat)) :=
  ⟨by decide, ww_forecast_matches_dayspec wwDsEx 2 (by decide)⟩

theorem pyIntOfJVal_intCast (k : Int) : pyIntOfJVal (.num (k : ℚ)) = .ok k := by
  show Except.ok (((k : ℚ)).num.tdiv (((k : ℚ)).den : Int)) = .ok k
  rw [Rat.num_intCast, Rat.den_intCast]
  simp [Int.tdiv_one]

theorem omEntry_mk (times : List JVal) (tmins tmaxs : List ℚ) (codes : List Int) (i : Nat) :
    omEntry times (tmins.map JVal.num) (tmaxs.map JVal.num)
        (codes.map (fun (k : Int) => JVal.num (k : ℚ))) i
      = .ok (omEntrySpec times tmins tmaxs codes i) := by
  unfold omEntry omEntrySpec
  rw [List.getElem?_map, List.getElem?_map, List.getElem?_map]
  cases hc : codes[i]? <;> cases hm : tmins[i]? <;> cases hx : tmaxs[i]? <;>
    simp [Option.map, pyIntOfJVal_intCast, pyFloatOfJVal, Except.map]

theorem open_meteo_days_mk (times : List JVal) (tmins tmaxs : List ℚ)
    (codes : List Int) (d : Int) :
    open_meteo_days (mkOMBody times tmins tmaxs codes) d
      = .ok ((List.range (min (times.length : Int) d).toNat).map
          (omEntrySpec times tmins tmaxs codes)) := by
  unfold open_meteo_days mkOMBody
  dsimp only [asObj]
  have h1 : pyGetD [("daily", JVal.obj
      [("time", .arr times),
       ("temperature_2m_min", .arr (tmins.map JVal.num)),
       ("temperature_2m_max", .arr (tmaxs.map JVal.num)),
       ("weathercode", .arr (codes.map (fun (k : Int) => JVal.num (k : ℚ))))])]
      "daily" (.obj [])
      = JVal.obj
      [("time", .arr times),
       ("temperature_2m_min", .arr (tmins.map JVal.num)),
       ("temperature_2m_max", .arr (tmaxs.map JVal.num)),
       ("weathercode", .arr (codes.map (fun (k : Int) => JVal.num (k : ℚ))))] := by
    with_unfolding_all rfl
  rw [h1]
  dsimp only [asObj]
  have h2 : pyGetD [("time", JVal.arr times),
       ("temperature_2m_min", JVal.arr (tmins.map JVal.num)),
       ("temperature_2m_max", JVal.arr (tmaxs.map JVal.num)),
       ("weathercode", JVal.arr (codes.map (fun (k : Int) => JVal.num (k : ℚ))))]
      "time" (.arr []) = JVal.arr times := by with_unfolding_all rfl
  have h3 : pyGetD [("time", JVal.arr times),
       ("temperature_2m_min", JVal.arr (tmins.map JVal.num)),
       ("temperature_2m_max", JVal.arr (tmaxs.map JVal.num)),
       ("weathercode", JVal.arr (codes.map (fun (k : Int) => JVal.num (k : ℚ))))]
      "temperature_2m_min" (.arr []) = JVal.arr (tmins.map JVal.num) := by
    with_unfolding_all rfl
  have h4 : pyGetD [("time", JVal.arr times),
       ("temperature_2m_min", JVal.arr (tmins.map JVal.num)),
       ("temperature_2m_max", JVal.arr (tmaxs.map JVal.num)),
       ("weathercode", JVal.arr (codes.map (fun (k : Int) => JVal.num (k : ℚ))))]
      "temperature_2m_max" (.arr []) = JVal.arr (tmaxs.map JVal.num) := by
    with_unfolding_all rfl
  have h5 : pyGetD [("time", JVal.arr times),
       ("temperature_2m_min", JVal.arr (tmins.map JVal.num)),
       ("temperature_2m_max", JVal.arr (tmaxs.map JVal.num)),
       ("weathercode", JVal.arr (codes.map (fun (k : Int) => JVal.num (k : ℚ))))]
      "weathercode" (.arr [])
      = JVal.arr (codes.map (fun (k : Int) => JVal.num (k : ℚ))) := by
    with_unfolding_all rfl
  rw [h2]
  dsimp only [asList]
  rw [h3]
  dsimp only [asList]
  rw [h4]
  dsimp only [asList]
  rw [h5]
  dsimp only [asList]
  exact mapM_except_ok _ _ _ (fun i _ => omEntry_mk times tmins tmaxs codes i)

/-- C8: the Open-Meteo adapter yields exactly `min(len(times), days)` forecast
days; each day's summary is the fixed lookup label of its integer weather code
(61 maps to "Rain", the unmapped 999 to "Code 999", and in general an unmapped
code `m` to `"Code {m}"`), positions where the min/max temperature arrays are
shorter than the time array get `null` temperature fields, and no error is
raised. -/
theorem open_meteo_adapter_properties (times : List JVal) (tmins tmaxs : List ℚ)
    (codes : List Int) (d : Int) (hd : 0 ≤ d) :
    map_open_meteo_code 61 = "Rain" ∧
    map_open_meteo_code 999 = "Code 999" ∧
    (∀ m : Int, m ∉ omMappedCodes → map_open_meteo_code m = "Code " ++ toString m) ∧
    ∃ fc : List JVal,
      open_meteo_process (mkOMBody times tmins tmaxs codes) d
        = .ok [("forecast", .arr fc)] ∧
      fc.length = min times.length d.toNat ∧
      ∀ i : Nat, i < fc.length →
        ∃ e : JObj, fc[i]? = some (.obj e) ∧
          objGet? e "summary" = some (.str (match codes[i]? with
            | some k => map_open_meteo_code k
            | none => "—")) ∧
          objGet? e "tempMin" = some (match tmins[i]? with
            | some q => JVal.num q
            | none => JVal.null) ∧
          objGet? e "tempMax" = some (match tmaxs[i]? with
            | some q => JVal.num q
            | none => JVal.null) := by
  refine ⟨by decide, by decide, ?_, ?_⟩
  · intro m hm
    have hni : ∀ L : List Int, (∀ x ∈ L, x ∈ omMappedCodes) → m ∉ L :=
      fun L hsub hmL => hm (hsub m hmL)
    unfold map_open_meteo_code
    rw [if_neg (hni [0] (by decide)), if_neg (hni [1] (by decide)),
        if_neg (hni [2] (by decide)), if_neg (hni [3] (by decide)),
        if_neg (hni [45, 48] (by decide)), if_neg (hni [51, 53, 55] (by decide)),
        if_neg (hni [56, 57] (by decide)), if_neg (hni [61, 63, 65] (by decide)),
        if_neg (hni [66, 67] (by decide)), if_neg (hni [71, 73, 75, 77] (by decide)),
        if_neg (hni [80, 81, 82] (by decide)), if_neg (hni [85, 86] (by decide)),
        if_neg (hni [95] (by decide)), if_neg (hni [96, 97, 99] (by decide))]
  · unfold open_meteo_process
    rw [open_meteo_days_mk]
    dsimp only
    refine ⟨_, rfl, ?_, ?_⟩
    · rw [normDays_length, List.length_map, List.length_range]
      omega
    · intro i hi
      rw [normDays_length, List.length_map, List.length_range] at hi
      rw [normDays_getElem?]
      simp only [Nat.zero_add]
      rw [List.getElem?_map, List.getElem?_range hi]
      refine ⟨_, rfl, by with_unfolding_all rfl, by with_unfolding_all rfl,
              by with_unfolding_all rfl⟩

theorem open_meteo_adapter_properties_witness :
    map_open_meteo_code 61 = "Rain" ∧
    map_open_meteo_code 999 = "Code 999" ∧
    (∀ m : Int, m ∉ omMappedCodes → map_open_meteo_code m = "Code " ++ toString m) ∧
    ∃ fc : List JVal,
      open_meteo_process (mkOMBody [.str "a", .str "b"] [5] [9, 10] [61, 999]) 7
        = .ok [("forecast", .arr fc)] ∧
      fc.length = min ([JVal.str "a", JVal.str "b"].length) (7 : Int).toNat ∧
      ∀ i : Nat, i < fc.length →
        ∃ e : JObj, fc[i]? = some (.obj e) ∧
          objGet? e "summary" = some (.str (match ([61, 999] : List Int)[i]? with
            | some k => map_open_meteo_code k
            | none => "—")) ∧
          objGet? e "tempMin" = some (match ([5] : List ℚ)[i]? with
            | some q => JVal.num q
            | none => JVal.null) ∧
          objGet? e "tempMax" = some (match ([9, 10] : List ℚ)[i]? with
            | some q => JVal.num q
            | none => JVal.null) :=
  open_meteo_adapter_properties [.str "a", .str "b"] [5] [9, 10] [61, 999] 7 (by decide)
